import Mathlib

/-!
Verification of `check_restic_health_check.py`: a monitoring probe that runs
`restic check` as a subprocess and classifies the outcome into OK / CRITICAL /
UNKNOWN health results for a Nagios-style monitoring framework.

The embedding below mirrors the Python source shallowly:
* `ResticHealthCheck` embeds the resource object created by `__init__`
  (configuration fields plus the mutable `stderr` slot, initialised to `None`).
* `Env` carries the three environment variables the script reads.
* Python truthiness of an optional string (`not x` is true for both `None`
  and `""`) is embedded as `truthy`.
* The external subprocess is an oracle `List String → ProcResult`: launching
  can fail at the OS level (the `IOError` branch) or complete with an exit
  code and captured combined output.
* `probe` embeds the generator `ResticHealthCheck.probe`; a run of the
  generator is represented by the list of yielded metrics, each paired with
  the snapshot of `self.stderr` at the moment of the yield, plus the final
  value of `self.stderr` once the generator is exhausted.  Raising
  `nagiosplugin.CheckError` is embedded as `Except.error` with the message.
-/

namespace ResticCheck

/-- Python truthiness of an optional string: `None` and the empty string are
falsy, every other string is truthy. -/
def truthy : Option String → Bool
  | none => false
  | some s => !(s == "")

/-- The environment variables read by the script via `os.environ.get`. -/
structure Env where
  resticRepository : Option String
  resticPassword : Option String
  resticPasswordFile : Option String

/-- The resource object built by `ResticHealthCheck.__init__`: the four
configuration fields plus the mutable `stderr` slot (set to `None` by
`__init__`, assigned in the `CalledProcessError` branch of `probe`). -/
structure ResticHealthCheck where
  restic_bin : String
  repo : Option String
  password_file : Option String
  -- the source field is named `sudo`; that word is a command keyword in Lean,
  -- so the field carries a `_flag` suffix here
  sudo_flag : Bool
  stderr : Option String

/-- A `nagiosplugin.Metric` as constructed by `probe`: name (which is
`self.repo`, possibly `None`), boolean value, and context string. -/
structure Metric where
  name : Option String
  value : Bool
  context : String
deriving DecidableEq

/-- Outcome of attempting to launch the external process: either an OS-level
launch failure (the `IOError` branch) carrying the OS error text, or a
completed process with an exit code and the captured combined
stdout+stderr output. -/
inductive ProcResult where
  | osError (msg : String)
  | completed (exitCode : Nat) (output : String)

/-- Command construction from lines 42-50 of the source: start from
`[restic_bin, "check", "--quiet", "--no-lock"]`, prepend `"sudo"` when
configured, then append `--repo` / `--password-file` pairs when the
corresponding field is truthy. -/
def buildCmd (r : ResticHealthCheck) : List String :=
  let cmd := [r.restic_bin, "check", "--quiet", "--no-lock"]
  let cmd := if r.sudo_flag then "sudo" :: cmd else cmd
  let cmd := if truthy r.repo then cmd ++ ["--repo", r.repo.getD ""] else cmd
  if truthy r.password_file then
    cmd ++ ["--password-file", r.password_file.getD ""]
  else cmd

/-- The observable behaviour of one full run of the `probe` generator:
the yielded metrics in order, each paired with the value of `self.stderr`
at the moment it was yielded, and the final value of `self.stderr` after
the generator is exhausted. -/
structure ProbeOutput where
  yields : List (Metric × Option String)
  finalStderr : Option String
deriving DecidableEq

/-- Exact message of the repository `CheckError` (source lines 32-34). -/
def repoErrMsg : String :=
  "Please specify repository location (-r, --repo or $RESTIC_REPOSITORY)"

/-- Exact message of the password `CheckError` (source lines 38-40). -/
def passwordErrMsg : String :=
  "Please specify password or its location (-p, --password-file, $RESTIC_PASSWORD or $RESTIC_PASSWORD_FILE)"

/-- Embedding of `ResticHealthCheck.probe` driven to completion against a
subprocess oracle `runProc`.  `Except.error` is a raised
`nagiosplugin.CheckError` with the given message. -/
def probe (r : ResticHealthCheck) (env : Env)
    (runProc : List String → ProcResult) : Except String ProbeOutput :=
  if !truthy r.repo && !truthy env.resticRepository then
    .error repoErrMsg
  else if !truthy r.password_file &&
      !(truthy env.resticPassword || truthy env.resticPasswordFile) then
    .error passwordErrMsg
  else
    let cmd := buildCmd r
    match runProc cmd with
    | .osError e =>
        .error ("Failed to run " ++ String.intercalate " " cmd ++ ": " ++ e)
    | .completed exitCode output =>
        if exitCode ≠ 0 then
          -- CalledProcessError branch: yield Metric(self.repo, False) first,
          -- then assign self.stderr = e.output.decode()
          .ok { yields := [(⟨r.repo, false, "health_check"⟩, r.stderr)],
                finalStderr := some output }
        else
          .ok { yields := [(⟨r.repo, true, "health_check"⟩, r.stderr)],
                finalStderr := r.stderr }

/-- Severity values used by the script (`nagiosplugin.Ok` /
`nagiosplugin.Critical`; `unknown` is what the framework reports for a
propagated `CheckError`). -/
inductive Severity where
  | ok
  | critical
  | unknown
deriving DecidableEq

/-- `ResticHealthCheckContext.evaluate`: `Ok` when `metric.value` is truthy,
`Critical` otherwise. -/
def evaluate (metric : Metric) : Severity :=
  if metric.value then .ok else .critical

/-- `ResticHealthCheckContext.describe`: returns `metric.resource.stderr`,
ignoring everything else about the metric.  The first argument is the
resource's `stderr` field at the time `describe` is called. -/
def describe (resourceStderr : Option String) (_metric : Metric) : Option String :=
  resourceStderr

/-- Python `str()` of an optional string, as used by `'%s' % name`:
`None` renders as the four characters `None`. -/
def pyStr : Option String → String
  | none => "None"
  | some s => s

/-- A result as consumed by `ResticSummary`: a metric together with the
severity the framework attached to it. -/
structure CheckResult where
  metric : Metric
  severity : Severity
deriving DecidableEq

namespace ResticSummary

/-- `ResticSummary.ok`: render every result as `<name> health check OK`,
join with `, `, prefix with `Repository `. -/
def ok (results : List CheckResult) : String :=
  "Repository " ++
    String.intercalate ", "
      (results.map (fun r => pyStr r.metric.name ++ " health check OK"))

/-- `ResticSummary.problem`: render every result in the given list as
`<name> health check FAILED`, join with `, `, wrap as
`Repository ... failed`.  Note the list comprehension iterates over the
whole `results` argument; no severity filtering happens here. -/
def problem (results : List CheckResult) : String :=
  "Repository " ++
    String.intercalate ", "
      (results.map (fun r => pyStr r.metric.name ++ " health check FAILED")) ++
    " failed"

end ResticSummary

/-- The severities produced by one probe-plus-classify run: classify each
yielded metric with `evaluate`.  Errors propagate unchanged. -/
def runSeverities (r : ResticHealthCheck) (env : Env)
    (runProc : List String → ProcResult) : Except String (List Severity) :=
  (probe r env runProc).map (fun out => out.yields.map (fun p => evaluate p.1))

/-- C1 evidence: `ResticSummary.problem` applied to the result set
[a with severity OK, b with severity CRITICAL] renders BOTH results,
including the OK one, so its output is
`Repository a health check FAILED, b health check FAILED failed` and not
the string `Repository b health check FAILED failed` that restricting to
non-OK results would give.  The list comprehension in the source does not
filter by severity, contradicting its own docstring
(`Show only the results that have crossed the threshold`). -/
theorem problem_renders_ok_results :
    ResticSummary.problem
        [⟨⟨some "a", true, "health_check"⟩, .ok⟩,
         ⟨⟨some "b", false, "health_check"⟩, .critical⟩] =
      "Repository a health check FAILED, b health check FAILED failed" ∧
    ResticSummary.problem
        [⟨⟨some "a", true, "health_check"⟩, .ok⟩,
         ⟨⟨some "b", false, "health_check"⟩, .critical⟩] ≠
      "Repository b health check FAILED failed" := by
  exact ⟨rfl, by decide⟩

/-- C2 counterexample: with no explicit repo, `RESTIC_REPOSITORY=r` set, a
password file configured and the tool exiting 0, `probe` yields a metric
whose name is `None` (the `self.repo` field), not the repository identifier
`r` that was resolved from the environment. -/
theorem probe_metric_name_counterexample :
    probe ⟨"restic", none, some "/p", false, none⟩
        ⟨some "r", none, none⟩ (fun _ => .completed 0 "") =
      .ok ⟨[(⟨none, true, "health_check"⟩, none)], none⟩ ∧
    (none : Option String) ≠ some "r" := by
  exact ⟨rfl, by decide⟩

/-- C2 amended: every metric yielded by a successful `probe` run carries the
explicitly configured `repo` field as its name — which is `None`, not the
environment value, whenever the repository was resolved only from
`RESTIC_REPOSITORY`. -/
theorem probe_metric_name_eq_repo_field (r : ResticHealthCheck) (env : Env)
    (runProc : List String → ProcResult) (out : ProbeOutput)
    (h : probe r env runProc = .ok out) :
    ∀ p ∈ out.yields, p.1.name = r.repo := by
  intro p hp
  simp only [probe] at h
  split at h
  · exact Except.noConfusion h
  · split at h
    · exact Except.noConfusion h
    · split at h
      · exact Except.noConfusion h
      · split at h
        · injection h with h
          subst h
          rw [List.mem_singleton] at hp
          subst hp
          rfl
        · injection h with h
          subst h
          rw [List.mem_singleton] at hp
          subst hp
          rfl

/-- C2 amended witness: applying the amended theorem at a concrete
configuration whose explicit repo is `r1`. -/
theorem probe_metric_name_eq_repo_field_witness :
    (Metric.mk (some "r1") true "health_check").name = some "r1" :=
  probe_metric_name_eq_repo_field
    ⟨"restic", some "r1", some "/p", false, none⟩ ⟨none, none, none⟩
    (fun _ => .completed 0 "")
    ⟨[(⟨some "r1", true, "health_check"⟩, none)], none⟩ rfl
    (⟨some "r1", true, "health_check"⟩, none) (by simp)

/-- C3: command construction is deterministic and order-preserving.  With
`sudo=true`, explicit repo `r1` and password file `/p` the argv is exactly
`[sudo, bin, check, --quiet, --no-lock, --repo, r1, --password-file, /p]`;
in general the sudo token comes first and the optional `--repo` /
`--password-file` pairs are appended, in that order, exactly when the
corresponding field is configured (truthy). -/
theorem buildCmd_argv :
    (∀ bin : String,
      buildCmd ⟨bin, some "r1", some "/p", true, none⟩ =
        ["sudo", bin, "check", "--quiet", "--no-lock",
         "--repo", "r1", "--password-file", "/p"]) ∧
    (∀ (bin : String) (rep pf : Option String) (s : Bool) (st : Option String),
      buildCmd ⟨bin, rep, pf, s, st⟩ =
        (if s then ["sudo"] else []) ++ [bin, "check", "--quiet", "--no-lock"] ++
        (if truthy rep then ["--repo", rep.getD ""] else []) ++
        (if truthy pf then ["--password-file", pf.getD ""] else [])) := by
  constructor
  · intro bin
    rfl
  · intro bin rep pf s st
    simp only [buildCmd]
    cases s <;> cases hr : truthy rep <;> cases hp : truthy pf <;> simp

/-- C4: a subprocess that launches but exits non-zero is never propagated as
an error: `probe` succeeds and yields exactly one metric with value false,
the final resource `stderr` is exactly the captured combined output, the
metric classifies as CRITICAL, and `describe` on that resource state returns
exactly the captured output (possibly the empty string). -/
theorem probe_nonzero_exit (r : ResticHealthCheck) (env : Env)
    (exitCode : Nat) (output : String)
    (hrepo : (truthy r.repo || truthy env.resticRepository) = true)
    (hpw : (truthy r.password_file ||
        (truthy env.resticPassword || truthy env.resticPasswordFile)) = true)
    (hcode : exitCode ≠ 0) :
    probe r env (fun _ => .completed exitCode output) =
      .ok ⟨[(⟨r.repo, false, "health_check"⟩, r.stderr)], some output⟩ ∧
    evaluate ⟨r.repo, false, "health_check"⟩ = .critical ∧
    describe (some output) ⟨r.repo, false, "health_check"⟩ = some output := by
  have h1 : (!truthy r.repo && !truthy env.resticRepository) = false := by
    rw [← Bool.not_or, hrepo]
    rfl
  have h2 : (!truthy r.password_file &&
      !(truthy env.resticPassword || truthy env.resticPasswordFile)) = false := by
    rw [← Bool.not_or, hpw]
    rfl
  refine ⟨?_, rfl, rfl⟩
  simp only [probe, h1, h2, Bool.false_eq_true, if_false]
  rw [if_pos hcode]

/-- C4 witness: a concrete run against a tool exiting 1 with output
`fail text`. -/
theorem probe_nonzero_exit_witness :
    probe ⟨"restic", some "r1", some "/p", false, none⟩ ⟨none, none, none⟩
        (fun _ => .completed 1 "fail text") =
      .ok ⟨[(⟨some "r1", false, "health_check"⟩, none)], some "fail text"⟩ ∧
    evaluate ⟨some "r1", false, "health_check"⟩ = .critical ∧
    describe (some "fail text") ⟨some "r1", false, "health_check"⟩ =
      some "fail text" :=
  probe_nonzero_exit ⟨"restic", some "r1", some "/p", false, none⟩
    ⟨none, none, none⟩ 1 "fail text" (by decide) (by decide) (by decide)

/-- C5: when the repository is absent both from the explicit configuration
and from `RESTIC_REPOSITORY` (Python-falsy in both places), `probe` fails
with the repository `CheckError`, whose message names the `-r, --repo`
option and the `$RESTIC_REPOSITORY` alternative, for EVERY subprocess
oracle — so no subprocess is ever consulted. -/
theorem probe_missing_repo (r : ResticHealthCheck) (env : Env)
    (h1 : truthy r.repo = false) (h2 : truthy env.resticRepository = false)
    (runProc : List String → ProcResult) :
    probe r env runProc =
      .error
        "Please specify repository location (-r, --repo or $RESTIC_REPOSITORY)" := by
  simp only [probe, h1, h2]
  rfl

/-- C5 witness: a concrete configuration with no repo anywhere, checked
against an arbitrary oracle. -/
theorem probe_missing_repo_witness :
    probe ⟨"restic", none, some "/p", false, none⟩ ⟨none, none, none⟩
        (fun _ => .completed 0 "") =
      .error
        "Please specify repository location (-r, --repo or $RESTIC_REPOSITORY)" :=
  probe_missing_repo ⟨"restic", none, some "/p", false, none⟩ ⟨none, none, none⟩
    rfl rfl (fun _ => .completed 0 "")

/-- C6: when no credential source is available (explicit password file,
`RESTIC_PASSWORD` and `RESTIC_PASSWORD_FILE` all Python-falsy), `probe`
fails with a `CheckError` for every subprocess oracle and every repository
configuration — the failure-with-CheckError outcome is independent of
whether the repository is present (though the message is the repository one
when the repository is missing too). -/
theorem probe_missing_password (r : ResticHealthCheck) (env : Env)
    (hpf : truthy r.password_file = false)
    (hpw : truthy env.resticPassword = false)
    (hpwf : truthy env.resticPasswordFile = false)
    (runProc : List String → ProcResult) :
    probe r env runProc =
      .error (if !truthy r.repo && !truthy env.resticRepository
        then repoErrMsg else passwordErrMsg) := by
  simp only [probe, hpf, hpw, hpwf]
  by_cases hr : (!truthy r.repo && !truthy env.resticRepository) = true
  · simp only [if_pos hr]
  · simp only [if_neg hr]
    rfl

/-- C6 witness: a concrete configuration with the repository present but no
credential source anywhere still fails with the password `CheckError`. -/
theorem probe_missing_password_witness :
    probe ⟨"restic", some "r1", none, false, none⟩ ⟨none, none, none⟩
        (fun _ => .completed 0 "") = .error passwordErrMsg :=
  probe_missing_password ⟨"restic", some "r1", none, false, none⟩
    ⟨none, none, none⟩ rfl rfl rfl (fun _ => .completed 0 "")

/-- C7: when the process cannot be launched at all (the `IOError` branch),
`probe` raises a `CheckError` whose message is exactly
`Failed to run <space-joined argv>: <OS error text>` — containing both the
attempted command line and the underlying OS error — and no metric is
produced, since the result is an error and carries no `ProbeOutput`. -/
theorem probe_launch_failure (r : ResticHealthCheck) (env : Env)
    (oserr : String)
    (hrepo : (truthy r.repo || truthy env.resticRepository) = true)
    (hpw : (truthy r.password_file ||
        (truthy env.resticPassword || truthy env.resticPasswordFile)) = true) :
    probe r env (fun _ => .osError oserr) =
      .error ("Failed to run " ++ String.intercalate " " (buildCmd r) ++
        ": " ++ oserr) ∧
    ∀ out, probe r env (fun _ => .osError oserr) ≠ .ok out := by
  have h1 : (!truthy r.repo && !truthy env.resticRepository) = false := by
    rw [← Bool.not_or, hrepo]
    rfl
  have h2 : (!truthy r.password_file &&
      !(truthy env.resticPassword || truthy env.resticPasswordFile)) = false := by
    rw [← Bool.not_or, hpw]
    rfl
  have hmain : probe r env (fun _ => .osError oserr) =
      .error ("Failed to run " ++ String.intercalate " " (buildCmd r) ++
        ": " ++ oserr) := by
    simp only [probe, h1, h2, Bool.false_eq_true, if_false]
  refine ⟨hmain, fun out hout => ?_⟩
  rw [hmain] at hout
  exact Except.noConfusion hout

/-- C7 witness: a concrete configuration whose binary cannot be launched
produces exactly the command line and OS error in the message. -/
theorem probe_launch_failure_witness :
    probe ⟨"restic", some "r1", some "/p", false, none⟩ ⟨none, none, none⟩
        (fun _ => .osError "No such file or directory") =
      .error
        "Failed to run restic check --quiet --no-lock --repo r1 --password-file /p: No such file or directory" :=
  (probe_launch_failure ⟨"restic", some "r1", some "/p", false, none⟩
    ⟨none, none, none⟩ "No such file or directory" (by decide) (by decide)).1

/-- C8: `evaluate` is a pure function from a metric to a severity: a truthy
value maps to OK, a falsy value to CRITICAL, and no metric ever maps to
UNKNOWN (the only two possible outputs are OK and CRITICAL). -/
theorem evaluate_pure :
    ∀ m : Metric,
      (m.value = true → evaluate m = Severity.ok) ∧
      (m.value = false → evaluate m = Severity.critical) ∧
      (evaluate m = Severity.ok ∨ evaluate m = Severity.critical) := by
  intro m
  refine ⟨fun h => ?_, fun h => ?_, ?_⟩
  · simp [evaluate, h]
  · simp [evaluate, h]
  · cases hv : m.value
    · exact Or.inr (by simp [evaluate, hv])
    · exact Or.inl (by simp [evaluate, hv])

/-- C8 witness: the healthy metric classifies OK. -/
theorem evaluate_pure_witness :
    evaluate ⟨some "r1", true, "health_check"⟩ = Severity.ok :=
  (evaluate_pure ⟨some "r1", true, "health_check"⟩).1 rfl

/-- C9: determinism across runs.  The severity outcome of a
probe-plus-classify run is a function of the configuration, environment and
external tool behaviour alone: it does not depend on any leftover value of
the mutable `stderr` slot (the only mutable state on the resource), and
running the same inputs twice yields the same result. -/
theorem run_deterministic (bin : String) (rep pf : Option String) (s : Bool)
    (st1 st2 : Option String) (env : Env)
    (runProc : List String → ProcResult) :
    runSeverities ⟨bin, rep, pf, s, st1⟩ env runProc =
      runSeverities ⟨bin, rep, pf, s, st2⟩ env runProc ∧
    runSeverities ⟨bin, rep, pf, s, st1⟩ env runProc =
      runSeverities ⟨bin, rep, pf, s, st1⟩ env runProc := by
  refine ⟨?_, rfl⟩
  simp only [runSeverities, probe, buildCmd]
  split
  · rfl
  · split
    · rfl
    · split <;> split <;> simp [Except.map]

/-- C10: `describe` returns the resource's `stderr` slot regardless of the
metric it is given (in particular regardless of the metric's health value);
on the healthy path the slot is never assigned, so the description of an OK
metric is the absent value `none`, not the empty string; and on the
unhealthy path the slot is assigned only AFTER the metric is yielded: the
snapshot paired with the yielded metric is still `none` while the final
state after the generator is exhausted is `some output`. -/
theorem describe_stderr_timing (r : ResticHealthCheck) (env : Env)
    (exitCode : Nat) (output : String)
    (hinit : r.stderr = none)
    (hrepo : (truthy r.repo || truthy env.resticRepository) = true)
    (hpw : (truthy r.password_file ||
        (truthy env.resticPassword || truthy env.resticPasswordFile)) = true)
    (hcode : exitCode ≠ 0) :
    (∀ (st : Option String) (m1 m2 : Metric), describe st m1 = describe st m2) ∧
    (probe r env (fun _ => .completed 0 output) =
        .ok ⟨[(⟨r.repo, true, "health_check"⟩, none)], none⟩ ∧
      describe none ⟨r.repo, true, "health_check"⟩ = none) ∧
    probe r env (fun _ => .completed exitCode output) =
      .ok ⟨[(⟨r.repo, false, "health_check"⟩, none)], some output⟩ := by
  have h1 : (!truthy r.repo && !truthy env.resticRepository) = false := by
    rw [← Bool.not_or, hrepo]
    rfl
  have h2 : (!truthy r.password_file &&
      !(truthy env.resticPassword || truthy env.resticPasswordFile)) = false := by
    rw [← Bool.not_or, hpw]
    rfl
  refine ⟨fun st m1 m2 => rfl, ⟨?_, rfl⟩, ?_⟩
  · simp only [probe, h1, h2, Bool.false_eq_true, if_false, hinit]
    rfl
  · simp only [probe, h1, h2, Bool.false_eq_true, if_false, hinit]
    rw [if_pos hcode]

/-- C10 witness: a concrete unhealthy run — the snapshot at the yield is
`none`, the final `stderr` is the captured output; and a concrete healthy
run whose description is `none`. -/
theorem describe_stderr_timing_witness :
    describe (some "x") ⟨some "r1", true, "health_check"⟩ =
      describe (some "x") ⟨some "r1", false, "health_check"⟩ ∧
    probe ⟨"restic", some "r1", some "/p", false, none⟩ ⟨none, none, none⟩
        (fun _ => .completed 0 "boom") =
      .ok ⟨[(⟨some "r1", true, "health_check"⟩, none)], none⟩ ∧
    probe ⟨"restic", some "r1", some "/p", false, none⟩ ⟨none, none, none⟩
        (fun _ => .completed 1 "boom") =
      .ok ⟨[(⟨some "r1", false, "health_check"⟩, none)], some "boom"⟩ := by
  have h := describe_stderr_timing ⟨"restic", some "r1", some "/p", false, none⟩
    ⟨none, none, none⟩ 1 "boom" rfl (by decide) (by decide) (by decide)
  exact ⟨h.1 (some "x") ⟨some "r1", true, "health_check"⟩
      ⟨some "r1", false, "health_check"⟩, h.2.1.1, h.2.2⟩

end ResticCheck
